import Mathlib

/-!
Shallow embedding of the Bastion-Website static pages.

The repository renders two static pages from bundled JSON fixtures:
a sponsors page (`SponsorsPage.render`, mapping each sponsor record to a
card wrapped in an external link) and an FAQ page (`FAQPage.questions`
flattening a grouped fixture, `FAQPage.render` mapping each item to a
question block), plus a default layout that invokes `this.props.children`
as a zero-argument function.  JSX output is modelled as a tree of `Node`s;
record fields are `Option String` with `none` standing for a missing
(undefined) JSON field, which React renders as empty text or an omitted
attribute.
-/

/-- A rendered view node: a JSX element with tag, attributes and children,
or an interpolated text value (`none` when the interpolated field is
undefined, which React renders as nothing). -/
inductive Node where
  | element (tag : String) (attrs : List (String × Option String)) (children : List Node)
  | text (s : Option String)

/-- A sponsor record from sponsors.json: title, description, image, url.
`none` models a missing field. -/
structure Sponsor where
  title : Option String
  description : Option String
  image : Option String
  url : Option String
deriving DecidableEq

/-- An FAQ item from faq.json: question, answer, optional image. -/
structure FAQItem where
  question : Option String
  answer : Option String
  image : Option String
deriving DecidableEq

/-- The grouped FAQ fixture: a JS object mapping category names to arrays
of items, iterated by `for ... in` in stored (insertion) order, hence an
ordered association list. -/
abbrev FAQ := List (String × List FAQItem)

/-- The card produced for one sponsor inside `sponsors.map` in
`SponsorsPage.render`: a div wrapping a single `ExternalLink` to
`sponsor.url`, containing the image div (img at 150x150 with
`src=sponsor.image`) and the details div (h4 title, p description). -/
def renderSponsorCard (sponsor : Sponsor) : Node :=
  Node.element "div" [("className", some "sponsor")]
    [Node.element "ExternalLink" [("to", sponsor.url)]
      [Node.element "div" [("className", some "image")]
        [Node.element "img"
          [("src", sponsor.image), ("width", some "150"),
           ("height", some "150"), ("alt", some "Sponsor Logo")] []],
       Node.element "div" [("className", some "details")]
        [Node.element "h4" [] [Node.text sponsor.title],
         Node.element "p" [] [Node.text sponsor.description]]]]

/-- The Helmet meta block of the sponsors page. -/
def sponsorsHelmet : Node :=
  Node.element "Helmet"
    [("og:image",
      some "https://resources.bastionbot.org/og/69e3e903264da46a77deea563573b186.jpg")] []

/-- The static header block of the sponsors page. -/
def sponsorsHeader : Node :=
  Node.element "div" [("className", some "header")]
    [Node.element "h1" [] [Node.text (some "Sponsors")],
     Node.element "p" []
       [Node.text (some "These are the amazing companies and people who sponsor The Bastion Bot Project and keep us running.")]]

/-- `SponsorsPage.render`: the page div with Helmet, header, and the
container holding one card per sponsor record, in fixture order. -/
def SponsorsPage.render (sponsors : List Sponsor) : Node :=
  Node.element "div" [("id", some "sponsors")]
    [sponsorsHelmet, sponsorsHeader,
     Node.element "div" [("className", some "container")]
       (sponsors.map renderSponsorCard)]

/-- State of `FAQPage.questions` while it runs: the module-level fixture
it reads (`store`) and the freshly created `questions` array (`out`). -/
structure QuestionsState where
  store : FAQ
  out : List FAQItem

/-- `questions.push(question)`: appends one item to the fresh array,
leaving the fixture untouched. -/
def pushQuestion (s : QuestionsState) (q : FAQItem) : QuestionsState :=
  { s with out := s.out ++ [q] }

/-- The nested loops of `FAQPage.questions`: for each category (in stored
order), push each of its items (in stored order) onto the array. -/
def questionsLoop : QuestionsState → List (String × List FAQItem) → QuestionsState
  | s, [] => s
  | s, g :: gs => questionsLoop (g.2.foldl pushQuestion s) gs

/-- `FAQPage.questions` as a state-passing computation over the fixture:
starts from an empty fresh array and runs the nested loops over the
fixture entries. -/
def FAQPage.questionsSt (store : FAQ) : QuestionsState :=
  questionsLoop ⟨store, []⟩ store

/-- The value returned by `FAQPage.questions`: the flattened array. -/
def FAQPage.questions (store : FAQ) : List FAQItem :=
  (FAQPage.questionsSt store).out

/-- The block produced for one item inside `this.questions().map` in
`FAQPage.render`: h4 question text, p answer text, and an unconditional
img whose src is the item image. -/
def renderQuestionBlock (question : FAQItem) : Node :=
  Node.element "div" [("className", some "question")]
    [Node.element "h4" [] [Node.text question.question],
     Node.element "p" [] [Node.text question.answer],
     Node.element "img" [("src", question.image), ("alt", some "")] []]

/-- The static header block of the FAQ page. -/
def faqHeader : Node :=
  Node.element "div" [("className", some "header")]
    [Node.element "h1" [] [Node.text (some "Frequently Asked Questions")],
     Node.element "p" []
       [Node.text (some "Have a question that is not listed here? No worries mate, just head over to the #help channel in Bastion Discord Server, and ask it.")]]

/-- `FAQPage.render`: the page div with header and the container holding
one question block per flattened item, in flattened order. -/
def FAQPage.render (faq : FAQ) : Node :=
  Node.element "div" [("id", some "faq")]
    [faqHeader,
     Node.element "div" [("className", some "container")]
       ((FAQPage.questions faq).map renderQuestionBlock)]

/-- The children list of a node (empty for text nodes). -/
def Node.childList : Node → List Node
  | .element _ _ cs => cs
  | .text _ => []

/-- The value of a named attribute of a node, `none` when absent or when
the attribute interpolates an undefined field. -/
def Node.attrOf : Node → String → Option String
  | .element _ attrs _, key => (attrs.lookup key).join
  | .text _, _ => none

/-- The text carried by a node, `none` for elements. -/
def Node.textOf : Node → Option String
  | .text s => s
  | .element _ _ _ => none

/-- Placeholder node used as a default for out-of-range child access. -/
def nilNode : Node := Node.text none

/-- The sponsor cards of the rendered sponsors page: the children of the
container div (third child of the page div). -/
def sponsorCards (sponsors : List Sponsor) : List Node :=
  ((SponsorsPage.render sponsors).childList.getD 2 nilNode).childList

/-- The question blocks of the rendered FAQ page: the children of the
container div (second child of the page div). -/
def faqBlocks (faq : FAQ) : List Node :=
  ((FAQPage.render faq).childList.getD 1 nilNode).childList

/-- The external link target of a sponsor card: the `to` attribute of the
ExternalLink that is the card's single child. -/
def cardLinkTarget (card : Node) : Option String :=
  (card.childList.getD 0 nilNode).attrOf "to"

/-- A named attribute of the img inside a sponsor card (first child of the
ExternalLink's image div). -/
def cardImgAttr (card : Node) (key : String) : Option String :=
  (((card.childList.getD 0 nilNode).childList.getD 0 nilNode).childList.getD 0 nilNode).attrOf key

/-- The title text of a sponsor card: the h4 text inside the details div. -/
def cardTitle (card : Node) : Option String :=
  ((((card.childList.getD 0 nilNode).childList.getD 1 nilNode).childList.getD 0 nilNode).childList.getD 0 nilNode).textOf

/-- The description text of a sponsor card: the p text inside the details
div. -/
def cardDescription (card : Node) : Option String :=
  ((((card.childList.getD 0 nilNode).childList.getD 1 nilNode).childList.getD 1 nilNode).childList.getD 0 nilNode).textOf

/-- The question text of a rendered FAQ block (text of its h4). -/
def blockQuestionText (block : Node) : Option String :=
  ((block.childList.getD 0 nilNode).childList.getD 0 nilNode).textOf

/-- The answer text of a rendered FAQ block (text of its p). -/
def blockAnswerText (block : Node) : Option String :=
  ((block.childList.getD 1 nilNode).childList.getD 0 nilNode).textOf

/-- Whether a node is an img element. -/
def Node.isImg : Node → Bool
  | .element t _ _ => t == "img"
  | .text _ => false

/-- How many img elements appear among a block's direct children. -/
def blockImgCount (block : Node) : Nat :=
  (block.childList.filter Node.isImg).length

/-- The src attribute of the img child of a rendered FAQ block. -/
def blockImgSrc (block : Node) : Option String :=
  (block.childList.getD 2 nilNode).attrOf "src"

theorem foldl_pushQuestion (items : List FAQItem) :
    ∀ s : QuestionsState,
      items.foldl pushQuestion s = ⟨s.store, s.out ++ items⟩ := by
  induction items with
  | nil => intro s; simp [List.foldl]
  | cons q qs ih =>
    intro s
    simp [List.foldl, pushQuestion, ih]

theorem questionsLoop_spec (gs : List (String × List FAQItem)) :
    ∀ s : QuestionsState,
      questionsLoop s gs = ⟨s.store, s.out ++ (gs.map Prod.snd).flatten⟩ := by
  induction gs with
  | nil => intro s; simp [questionsLoop]
  | cons g gs ih =>
    intro s
    simp [questionsLoop, foldl_pushQuestion, ih]

theorem questions_eq_flatten (store : FAQ) :
    FAQPage.questions store = (store.map Prod.snd).flatten := by
  simp [FAQPage.questions, FAQPage.questionsSt, questionsLoop_spec]

theorem sponsorCards_eq_map (sponsors : List Sponsor) :
    sponsorCards sponsors = sponsors.map renderSponsorCard := rfl

theorem faqBlocks_eq_map (faq : FAQ) :
    faqBlocks faq = (FAQPage.questions faq).map renderQuestionBlock := rfl

/-- The value of `this.props.children` seen by the layout: a zero-argument
function returning a node, some non-function node value, or undefined. -/
inductive ChildVal where
  | func (f : Unit → Node)
  | val (n : Node)
  | undef

/-- The props record of `DefaultLayout`. -/
structure LayoutProps where
  children : ChildVal

/-- Evaluation of the call expression `this.props.children()`: calling a
function yields its result; calling any non-function value throws a
TypeError. -/
def callChildren : ChildVal → Except String Node
  | .func f => .ok (f ())
  | _ => .error "TypeError: this.props.children is not a function"

/-- The Helmet block of the default layout (title and meta entries). -/
def layoutHelmet : Node :=
  Node.element "Helmet"
    [("title", some "The Bastion Bot - One of the best Discord Bot"),
     ("og:title", some "The Bastion Bot - One of the best Discord Bot"),
     ("description", some "Give awesome perks to your Discord server!"),
     ("og:description", some "Give awesome perks to your Discord server!"),
     ("og:image", some "https://resources.bastionbot.org/og-image.jpg")] []

/-- `DefaultLayout.render`: evaluates `this.props.children()` and renders
its result inside the main element, between Header and Footer, SiteBanner
and BackToTop; a thrown TypeError propagates out of render. -/
def DefaultLayout.render (props : LayoutProps) : Except String Node :=
  match callChildren props.children with
  | .ok c =>
      .ok (Node.element "root" []
        [layoutHelmet,
         Node.element "Header" [] [],
         Node.element "main" [] [c],
         Node.element "Footer" [] [],
         Node.element "SiteBanner" [] [],
         Node.element "BackToTop" [] []])
  | .error e => .error e

/-- The child rendered inside the layout's main element, `none` when the
render threw. -/
def layoutMain : Except String Node → Option Node
  | .ok page => some ((page.childList.getD 2 nilNode).childList.getD 0 nilNode)
  | .error _ => none

/-- The sponsor record from the spec's example. -/
def acmeSponsor : Sponsor :=
  ⟨some "Acme", some "Great tools", some "acme.png", some "https://acme.example"⟩

/-- A sponsor record with every field missing. -/
def blankSponsor : Sponsor := ⟨none, none, none, none⟩

/-- An FAQ item with every field missing. -/
def blankItem : FAQItem := ⟨none, none, none⟩

/-- An FAQ item whose optional image field is absent. -/
def bareItem : FAQItem := ⟨some "What is it?", some "A bot.", none⟩

/-- The FAQ grouping from the spec's example. -/
def exampleFAQ : FAQ :=
  [("general", [⟨some "What is it?", some "A bot.", none⟩]),
   ("billing", [⟨some "Is it free?", some "Yes.", none⟩])]

/-- C1: the flattened sequence produced by `FAQPage.questions` and
rendered as question blocks is exactly the concatenation of the
categories' item lists — categories in stored order, items in stored
order — with no re-sorting, deduplication, or filtering, and its length
is the total number of items across all categories. -/
theorem c1_faq_flatten_length_and_order (faq : FAQ) :
    faqBlocks faq = (FAQPage.questions faq).map renderQuestionBlock ∧
    FAQPage.questions faq = (faq.map Prod.snd).flatten ∧
    (faqBlocks faq).length = (faq.map (fun g => g.2.length)).sum := by
  refine ⟨rfl, questions_eq_flatten faq, ?_⟩
  simp only [faqBlocks_eq_map, List.length_map, questions_eq_flatten,
    List.length_flatten, List.map_map]
  rfl

/-- C2: rendering a sponsor sequence S produces exactly |S| cards, in the
order of S, and the i-th card's external link target is S[i].url. -/
theorem c2_sponsor_cards_count_and_links (S : List Sponsor) (i : Nat)
    (h : i < S.length) :
    (sponsorCards S).length = S.length ∧
    sponsorCards S = S.map renderSponsorCard ∧
    cardLinkTarget ((sponsorCards S).getD i nilNode) =
      (S.getD i blankSponsor).url := by
  refine ⟨by simp [sponsorCards_eq_map], rfl, ?_⟩
  rw [sponsorCards_eq_map]
  induction S generalizing i with
  | nil => cases h
  | cons a as ih =>
    cases i with
    | zero => rfl
    | succ n =>
      simpa [List.getD_cons_succ] using ih n (Nat.lt_of_succ_lt_succ h)

/-- Witness for C2 at the spec's example sponsor and index 0. -/
theorem c2_sponsor_cards_count_and_links_witness :
    0 < ([acmeSponsor] : List Sponsor).length ∧
    ((sponsorCards [acmeSponsor]).length = ([acmeSponsor] : List Sponsor).length ∧
     sponsorCards [acmeSponsor] = ([acmeSponsor] : List Sponsor).map renderSponsorCard ∧
     cardLinkTarget ((sponsorCards [acmeSponsor]).getD 0 nilNode) =
       (([acmeSponsor] : List Sponsor).getD 0 blankSponsor).url) :=
  ⟨by decide, c2_sponsor_cards_count_and_links [acmeSponsor] 0 (by decide)⟩

/-- C3: rendering is deterministic and idempotent — both pages are pure
functions of their data, so two invocations on the same data agree. -/
theorem c3_render_deterministic (ss : List Sponsor) (ff : FAQ) :
    SponsorsPage.render ss = SponsorsPage.render ss ∧
    FAQPage.render ff = FAQPage.render ff :=
  ⟨rfl, rfl⟩

/-- C4: every sponsor card consists of a single external link to the
sponsor's url wrapping an image at the fixed display size 150x150 with
the sponsor's image as src, the title, and the description. -/
theorem c4_sponsor_card_structure (s : Sponsor) :
    (renderSponsorCard s).childList.length = 1 ∧
    cardLinkTarget (renderSponsorCard s) = s.url ∧
    cardImgAttr (renderSponsorCard s) "width" = some "150" ∧
    cardImgAttr (renderSponsorCard s) "height" = some "150" ∧
    cardImgAttr (renderSponsorCard s) "src" = s.image ∧
    cardTitle (renderSponsorCard s) = s.title ∧
    cardDescription (renderSponsorCard s) = s.description :=
  ⟨rfl, rfl, rfl, rfl, rfl, rfl, rfl⟩

/-- C5 counterexample: it is false that a rendered FAQ block contains an
illustration only when the item's image attribute is present — the item
with question and answer but no image still renders an img element. -/
theorem c5_conditional_img_counterexample :
    ¬ (∀ q : FAQItem, q.image = none →
        blockImgCount (renderQuestionBlock q) = 0) :=
  fun h => absurd (h bareItem rfl) (by decide)

/-- C5 amended: every rendered FAQ block contains the question text, the
answer text, and unconditionally one img element whose src is the item's
image attribute (absent when the attribute is missing), rather than an
illustration only when the image attribute is present. -/
theorem c5_block_contents (q : FAQItem) :
    blockQuestionText (renderQuestionBlock q) = q.question ∧
    blockAnswerText (renderQuestionBlock q) = q.answer ∧
    blockImgCount (renderQuestionBlock q) = 1 ∧
    blockImgSrc (renderQuestionBlock q) = q.image :=
  ⟨rfl, rfl, rfl, rfl⟩

/-- C6: rendering never fails on records with missing fields — every
record still yields its card or block (counts are preserved for arbitrary
records), and a record with all fields missing renders empty text, an
img without src, and a link without target. -/
theorem c6_malformed_fields_never_fail (ss : List Sponsor) (ff : FAQ) :
    (sponsorCards ss).length = ss.length ∧
    (faqBlocks ff).length = (ff.map (fun g => g.2.length)).sum ∧
    cardTitle (renderSponsorCard blankSponsor) = none ∧
    cardDescription (renderSponsorCard blankSponsor) = none ∧
    cardImgAttr (renderSponsorCard blankSponsor) "src" = none ∧
    cardLinkTarget (renderSponsorCard blankSponsor) = none ∧
    blockQuestionText (renderQuestionBlock blankItem) = none ∧
    blockAnswerText (renderQuestionBlock blankItem) = none ∧
    blockImgSrc (renderQuestionBlock blankItem) = none := by
  refine ⟨by simp [sponsorCards_eq_map], ?_, rfl, rfl, rfl, rfl, rfl, rfl, rfl⟩
  simp only [faqBlocks_eq_map, List.length_map, questions_eq_flatten,
    List.length_flatten, List.map_map]
  rfl

/-- C7: the empty sponsor sequence renders zero cards, and an empty FAQ
grouping — no categories, or all categories empty — renders zero
question blocks. -/
theorem c7_empty_renders_zero (ff : FAQ) (h : ∀ g ∈ ff, g.2 = []) :
    sponsorCards [] = [] ∧ faqBlocks ([] : FAQ) = [] ∧ faqBlocks ff = [] := by
  refine ⟨rfl, rfl, ?_⟩
  rw [faqBlocks_eq_map, questions_eq_flatten]
  have hflat : (ff.map Prod.snd).flatten = [] := by
    rw [List.flatten_eq_nil_iff]
    intro l hl
    obtain ⟨g, hg, rfl⟩ := List.mem_map.mp hl
    exact h g hg
  simp [hflat]

/-- Witness for C7 at a grouping with two empty categories. -/
theorem c7_empty_renders_zero_witness :
    (∀ g ∈ ([("general", []), ("billing", [])] : FAQ), g.2 = []) ∧
    (sponsorCards [] = [] ∧ faqBlocks ([] : FAQ) = [] ∧
     faqBlocks ([("general", []), ("billing", [])] : FAQ) = []) :=
  ⟨by decide, c7_empty_renders_zero [("general", []), ("billing", [])] (by decide)⟩

/-- C8: the spec's example grouping renders exactly two question blocks,
the first asking "What is it?" and the second asking "Is it free?". -/
theorem c8_example_two_blocks :
    (faqBlocks exampleFAQ).length = 2 ∧
    blockQuestionText ((faqBlocks exampleFAQ).getD 0 nilNode) = some "What is it?" ∧
    blockQuestionText ((faqBlocks exampleFAQ).getD 1 nilNode) = some "Is it free?" :=
  ⟨rfl, rfl, rfl⟩

/-- C9: rendering leaves the input data unchanged — `FAQPage.questions`
accumulates into a freshly created array while the fixture it reads comes
out of the loop exactly as it went in, and the sponsor cards are a fresh
list mapped off the sponsor fixture. -/
theorem c9_render_does_not_mutate_fixture (ss : List Sponsor) (ff : FAQ) :
    (FAQPage.questionsSt ff).store = ff ∧
    FAQPage.questions ff = (ff.map Prod.snd).flatten ∧
    sponsorCards ss = ss.map renderSponsorCard := by
  refine ⟨?_, questions_eq_flatten ff, rfl⟩
  simp [FAQPage.questionsSt, questionsLoop_spec]

/-- C10: `DefaultLayout.render` invokes `this.props.children` as a
zero-argument function and renders its result inside the main element;
when the children value is not callable, the render fails with a
TypeError instead of rendering the children directly. -/
theorem c10_layout_calls_children (f : Unit → Node) (c : ChildVal)
    (h : ∀ g : Unit → Node, c ≠ ChildVal.func g) :
    layoutMain (DefaultLayout.render ⟨ChildVal.func f⟩) = some (f ()) ∧
    (∃ page, DefaultLayout.render ⟨ChildVal.func f⟩ = Except.ok page) ∧
    (∃ e, DefaultLayout.render ⟨c⟩ = Except.error e) := by
  refine ⟨rfl, ⟨_, rfl⟩, ?_⟩
  cases c with
  | func g => exact absurd rfl (h g)
  | val n => exact ⟨_, rfl⟩
  | undef => exact ⟨_, rfl⟩

/-- Witness for C10 at a concrete children function and the undefined
children value. -/
theorem c10_layout_calls_children_witness :
    (∀ g : Unit → Node, ChildVal.undef ≠ ChildVal.func g) ∧
    (layoutMain (DefaultLayout.render ⟨ChildVal.func fun _ => nilNode⟩) = some nilNode ∧
     (∃ page, DefaultLayout.render ⟨ChildVal.func fun _ => nilNode⟩ = Except.ok page) ∧
     (∃ e, DefaultLayout.render ⟨ChildVal.undef⟩ = Except.error e)) :=
  ⟨fun _ hg => ChildVal.noConfusion hg,
   c10_layout_calls_children (fun _ => nilNode) ChildVal.undef
     (fun _ hg => ChildVal.noConfusion hg)⟩
